import Mathlib

/-!
Shallow embedding of `src/main.rs` of `rmcp-trash`, an MCP server exposing
three tool handlers: `trash_file`, `trash_files` and `list_trash`.

Modelling choices:
* `PathBuf` is a string (`PathBuf::from` on a `String` keeps the text).
* The filesystem existence check (`Path::exists`) is a pure predicate
  parameter `pathExists : PathBuf → Bool` (the filesystem is assumed stable
  for the duration of one request).
* The trash delegate (`trash::delete`, `trash::delete_all`,
  `trash::os_limited::list`) is passed in as a function / value producing
  `Except String _` (the Rust `Result` with the error rendered by `Display`).
* Each handler returns the protocol-level result
  (`Except McpError CallToolResult`, mirroring
  `Result<CallToolResult, McpError>`) paired with the list of delegate calls
  it performed, in order, so that "the delegate is called exactly once with
  exactly these arguments" is a statement about the returned trace.
* The indexed access `params.paths[i]` inside `trash_files` is modelled with
  `List.get?`; an out-of-bounds access (a Rust panic) surfaces as `none`, so
  `trash_files` returns an `Option`.
-/

abbrev PathBuf := String

/-- `PathBuf::from(&String)`: keeps the path text unchanged. -/
def PathBuf.fromStr (s : String) : PathBuf := s

/-- Parameters of the `trash_file` tool (`TrashFileParams` in the source). -/
structure TrashFileParams where
  path : String

/-- Parameters of the `trash_files` tool (`TrashFilesParams` in the source). -/
structure TrashFilesParams where
  paths : List String

/-- One item of a trash listing; `name` models
`item.name.to_string_lossy().into_owned()`. -/
structure TrashItem where
  name : String
deriving DecidableEq

/-- A record of one call made to the trash delegate. -/
inductive DelegateCall where
  | delete : PathBuf → DelegateCall
  | deleteAll : List PathBuf → DelegateCall
  | list : DelegateCall
deriving DecidableEq

/-- Protocol-level error (`rmcp::ErrorData`); never produced by the handlers. -/
inductive McpError where
  | mk : String → McpError
deriving DecidableEq

/-- The tool-call result; `isError = false` marks a protocol-level success. -/
structure CallToolResult where
  content : List String
  isError : Bool
deriving DecidableEq

/-- `CallToolResult::success`: wraps text content with `isError = false`. -/
def CallToolResult.success (msgs : List String) : CallToolResult :=
  { content := msgs, isError := false }

/-- Handler `trash_file` (src/main.rs lines 54-74): existence check, then one
`trash::delete` call, each outcome formatted as text. -/
def trash_file (pathExists : PathBuf → Bool)
    (del : PathBuf → Except String Unit)
    (params : TrashFileParams) :
    Except McpError CallToolResult × List DelegateCall :=
  let path := PathBuf.fromStr params.path
  if !pathExists path then
    (Except.ok (CallToolResult.success ["Path does not exist: " ++ params.path]), [])
  else
    match del path with
    | Except.ok _ =>
      (Except.ok (CallToolResult.success ["Moved to trash: " ++ params.path]),
       [DelegateCall.delete path])
    | Except.error e =>
      (Except.ok (CallToolResult.success ["Failed to trash: " ++ e]),
       [DelegateCall.delete path])

/-- The partition loop of `trash_files` (src/main.rs lines 87-93): walks the
`PathBuf` vector with its index, pushing existing paths onto `to_trash` and
the original string `params.paths[i]` onto `missing`; the indexed access is
`orig.get? i`, with `none` standing for the out-of-bounds panic. -/
def partitionLoop (pathExists : PathBuf → Bool) (orig : List String) :
    List PathBuf → Nat → List String → List PathBuf →
    Option (List String × List PathBuf)
  | [], _, missing, to_trash => some (missing, to_trash)
  | p :: rest, i, missing, to_trash =>
    if pathExists p then
      partitionLoop pathExists orig rest (i + 1) missing (to_trash ++ [p])
    else
      match orig.get? i with
      | some s => partitionLoop pathExists orig rest (i + 1) (missing ++ [s]) to_trash
      | none => none

/-- Handler `trash_files` (src/main.rs lines 77-113): builds `paths` from
`params.paths`, partitions into missing / to-trash, short-circuits when
nothing exists, otherwise issues one `trash::delete_all` call and formats the
outcome. -/
def trash_files (pathExists : PathBuf → Bool)
    (delete_all : List PathBuf → Except String Unit)
    (params : TrashFilesParams) :
    Option (Except McpError CallToolResult × List DelegateCall) :=
  let paths : List PathBuf := params.paths.map PathBuf.fromStr
  match partitionLoop pathExists params.paths paths 0 [] [] with
  | none => none
  | some (missing, to_trash) =>
    if to_trash.isEmpty then
      some (Except.ok (CallToolResult.success ["No valid paths to trash"]), [])
    else
      match delete_all to_trash with
      | Except.ok _ =>
        let msg := "Moved " ++ toString to_trash.length ++ " items to trash"
        let msg :=
          if !missing.isEmpty then
            msg ++ ("\nSkipped (not found): " ++ String.intercalate ", " missing)
          else msg
        some (Except.ok (CallToolResult.success [msg]),
              [DelegateCall.deleteAll to_trash])
      | Except.error e =>
        some (Except.ok (CallToolResult.success ["Failed to trash: " ++ e]),
              [DelegateCall.deleteAll to_trash])

/-- Handler `list_trash`, build configuration with
`cfg(any(target_os = "linux", target_os = "windows"))` (src/main.rs lines
117-137): one `trash::os_limited::list` call, outcome formatted as text. -/
def list_trash_supported (listResult : Except String (List TrashItem)) :
    Except McpError CallToolResult × List DelegateCall :=
  match listResult with
  | Except.ok items =>
    if items.isEmpty then
      (Except.ok (CallToolResult.success ["Trash is empty"]), [DelegateCall.list])
    else
      (Except.ok (CallToolResult.success
        ["Trash contents (" ++ toString items.length ++ " items):\n" ++
          String.intercalate "\n" (items.map (fun item => item.name))]),
       [DelegateCall.list])
  | Except.error e =>
    (Except.ok (CallToolResult.success ["Failed to list trash: " ++ e]),
     [DelegateCall.list])

/-- Handler `list_trash`, build configuration with
`cfg(not(any(target_os = "linux", target_os = "windows")))` (src/main.rs
lines 139-144): a fixed message, no delegate involvement; the delegate is
still a parameter of the model to state that the result ignores it. -/
def list_trash_unsupported (_listDelegate : Except String (List TrashItem)) :
    Except McpError CallToolResult × List DelegateCall :=
  (Except.ok (CallToolResult.success
    ["list_trash is not supported on this platform (Linux/Windows only)"]), [])

deriving instance DecidableEq for Except

/-! Helper lemmas shared by the claim theorems. -/

theorem map_fromStr (l : List String) : l.map PathBuf.fromStr = l := by
  induction l with
  | nil => rfl
  | cons a t ih => simp [PathBuf.fromStr, ih]

theorem length_filter_not_add_length_filter (p : α → Bool) (l : List α) :
    (l.filter fun a => !p a).length + (l.filter p).length = l.length := by
  induction l with
  | nil => rfl
  | cons a t ih =>
    by_cases h : p a = true <;> simp [List.filter_cons, h] <;> omega

theorem partitionLoop_drop (f : PathBuf → Bool) (orig : List String)
    (ss : List String) :
    ∀ (i : Nat) (ms : List String) (acc : List PathBuf),
      orig.drop i = ss →
      partitionLoop f orig (ss.map PathBuf.fromStr) i ms acc =
        some (ms ++ ss.filter (fun s => !f (PathBuf.fromStr s)),
              acc ++ (ss.map PathBuf.fromStr).filter f) := by
  induction ss with
  | nil =>
    intro i ms acc h
    simp [partitionLoop]
  | cons s rest ih =>
    intro i ms acc h
    have hget : orig[i]? = some s := by
      have h0 : (orig.drop i)[0]? = some s := by rw [h]; simp
      rw [List.getElem?_drop] at h0
      simpa using h0
    have hdrop : orig.drop (i + 1) = rest := by
      have h1 : (orig.drop i).drop 1 = rest := by rw [h]; rfl
      rw [List.drop_drop] at h1
      simpa [Nat.add_comm] using h1
    by_cases hf : f (PathBuf.fromStr s) = true
    · rw [List.map_cons]
      rw [show partitionLoop f orig (PathBuf.fromStr s :: rest.map PathBuf.fromStr) i ms acc
            = partitionLoop f orig (rest.map PathBuf.fromStr) (i + 1) ms
                (acc ++ [PathBuf.fromStr s]) by simp [partitionLoop, hf]]
      rw [ih (i + 1) ms (acc ++ [PathBuf.fromStr s]) hdrop]
      simp [List.filter_cons, hf]
    · rw [List.map_cons]
      rw [show partitionLoop f orig (PathBuf.fromStr s :: rest.map PathBuf.fromStr) i ms acc
            = partitionLoop f orig (rest.map PathBuf.fromStr) (i + 1) (ms ++ [s]) acc by
          simp [partitionLoop, hf, hget]]
      rw [ih (i + 1) (ms ++ [s]) acc hdrop]
      simp [List.filter_cons, hf]

theorem partitionLoop_main (f : PathBuf → Bool) (ps : List String) :
    partitionLoop f ps (ps.map PathBuf.fromStr) 0 [] [] =
      some (ps.filter (fun s => !f (PathBuf.fromStr s)),
            (ps.map PathBuf.fromStr).filter f) := by
  have := partitionLoop_drop f ps ps 0 [] [] (by simp)
  simpa using this

theorem trash_files_eq (f : PathBuf → Bool) (da : List PathBuf → Except String Unit)
    (ps : List String) :
    trash_files f da ⟨ps⟩ =
      (if ((ps.map PathBuf.fromStr).filter f).isEmpty then
         some (Except.ok (CallToolResult.success ["No valid paths to trash"]), [])
       else
         match da ((ps.map PathBuf.fromStr).filter f) with
         | Except.ok _ =>
           some (Except.ok (CallToolResult.success
             [(if !(ps.filter fun s => !f (PathBuf.fromStr s)).isEmpty then
                 "Moved " ++ toString ((ps.map PathBuf.fromStr).filter f).length ++
                   " items to trash" ++
                   ("\nSkipped (not found): " ++
                     String.intercalate ", " (ps.filter fun s => !f (PathBuf.fromStr s)))
               else
                 "Moved " ++ toString ((ps.map PathBuf.fromStr).filter f).length ++
                   " items to trash")]),
             [DelegateCall.deleteAll ((ps.map PathBuf.fromStr).filter f)])
         | Except.error e =>
           some (Except.ok (CallToolResult.success ["Failed to trash: " ++ e]),
             [DelegateCall.deleteAll ((ps.map PathBuf.fromStr).filter f)])) := by
  show (match partitionLoop f ps (ps.map PathBuf.fromStr) 0 [] [] with
    | none => none
    | some (missing, to_trash) =>
      if to_trash.isEmpty then
        some (Except.ok (CallToolResult.success ["No valid paths to trash"]), [])
      else
        match da to_trash with
        | Except.ok _ =>
          some (Except.ok (CallToolResult.success
            [(if !missing.isEmpty then
                "Moved " ++ toString to_trash.length ++ " items to trash" ++
                  ("\nSkipped (not found): " ++ String.intercalate ", " missing)
              else "Moved " ++ toString to_trash.length ++ " items to trash")]),
            [DelegateCall.deleteAll to_trash])
        | Except.error e =>
          some (Except.ok (CallToolResult.success ["Failed to trash: " ++ e]),
            [DelegateCall.deleteAll to_trash])) = _
  rw [partitionLoop_main]

example : trash_files (fun p => !(p == "B")) (fun _ => Except.ok ()) ⟨["A", "B", "C"]⟩ =
    some (Except.ok (CallToolResult.success
      ["Moved 2 items to trash\nSkipped (not found): B"]),
      [DelegateCall.deleteAll ["A", "C"]]) := by decide

example : trash_files (fun _ => false) (fun _ => Except.ok ()) ⟨["B"]⟩ =
    some (Except.ok (CallToolResult.success ["No valid paths to trash"]), []) := by decide

example : trash_files (fun _ => true) (fun _ => Except.error "permission denied")
    ⟨["A"]⟩ =
    some (Except.ok (CallToolResult.success ["Failed to trash: permission denied"]),
      [DelegateCall.deleteAll ["A"]]) := by decide

/-! The claim theorems. -/

/-- Claim C1: for every batch request, `trash_files` partitions the input
path sequence into an existing subsequence and a missing subsequence, each in
the original input order with missing entries keeping their original string
form (both are `List.filter`s of the input), and when the existing
subsequence is non-empty the delegate batch-delete is called exactly once
with exactly that subsequence in that order. -/
theorem C1_trash_files_partitions (f : PathBuf → Bool)
    (da : List PathBuf → Except String Unit) (ps : List String) :
    partitionLoop f ps (ps.map PathBuf.fromStr) 0 [] [] =
      some (ps.filter (fun s => !f (PathBuf.fromStr s)),
            (ps.map PathBuf.fromStr).filter f)
    ∧ ((ps.map PathBuf.fromStr).filter f ≠ [] →
        ∃ r, trash_files f da ⟨ps⟩ =
          some (r, [DelegateCall.deleteAll ((ps.map PathBuf.fromStr).filter f)])) := by
  refine ⟨partitionLoop_main f ps, fun hne => ?_⟩
  have hie : ((ps.map PathBuf.fromStr).filter f).isEmpty = false := by
    simp [List.isEmpty_iff, hne]
  rw [trash_files_eq, hie]
  cases hda : da ((ps.map PathBuf.fromStr).filter f) with
  | ok u => exact ⟨_, rfl⟩
  | error e => exact ⟨_, rfl⟩

/-- Witness for C1 at the specification example: paths `[A, B, C]` with `B` missing. -/
theorem C1_trash_files_partitions_witness :
    ∃ r, trash_files (fun p => !(p == "B")) (fun _ => Except.ok ())
        ⟨["A", "B", "C"]⟩ =
      some (r, [DelegateCall.deleteAll ["A", "C"]]) :=
  (C1_trash_files_partitions (fun p => !(p == "B")) (fun _ => Except.ok ())
    ["A", "B", "C"]).2 (by decide)

/-- Claim C2: the number of missing (reported skipped) paths plus the number
of existing paths (the reported moved count) equals the length of the input
path sequence, for every input including duplicates. -/
theorem C2_trash_files_counts (f : PathBuf → Bool) (ps : List String)
    (missing : List String) (to_trash : List PathBuf)
    (h : partitionLoop f ps (ps.map PathBuf.fromStr) 0 [] [] =
      some (missing, to_trash)) :
    missing.length + to_trash.length = ps.length := by
  rw [partitionLoop_main] at h
  simp only [Option.some.injEq, Prod.mk.injEq] at h
  obtain ⟨h1, h2⟩ := h
  subst h1
  subst h2
  rw [map_fromStr]
  simpa [PathBuf.fromStr] using length_filter_not_add_length_filter f ps

/-- Witness for C2 on a duplicate-containing input `[A, B, A]` with `B`
missing. -/
theorem C2_trash_files_counts_witness :
    (["B"] : List String).length + (["A", "A"] : List PathBuf).length =
      (["A", "B", "A"] : List String).length :=
  C2_trash_files_counts (fun p => !(p == "B")) ["A", "B", "A"] ["B"] ["A", "A"]
    (by decide)

/-- Claim C3: when the existing subset is non-empty, `trash_files` reports
"Moved {N} items to trash" on delegate success, with the skipped list
appended if and only if some path was missing, and "Failed to trash: {error}"
on delegate failure. -/
theorem C3_trash_files_outcome (f : PathBuf → Bool)
    (da : List PathBuf → Except String Unit) (ps : List String)
    (hne : (ps.map PathBuf.fromStr).filter f ≠ []) :
    (∀ u, da ((ps.map PathBuf.fromStr).filter f) = Except.ok u →
      trash_files f da ⟨ps⟩ =
        some (Except.ok (CallToolResult.success
          [(if !(ps.filter fun s => !f (PathBuf.fromStr s)).isEmpty then
              "Moved " ++ toString ((ps.map PathBuf.fromStr).filter f).length ++
                " items to trash" ++
                ("\nSkipped (not found): " ++
                  String.intercalate ", "
                    (ps.filter fun s => !f (PathBuf.fromStr s)))
            else
              "Moved " ++ toString ((ps.map PathBuf.fromStr).filter f).length ++
                " items to trash")]),
          [DelegateCall.deleteAll ((ps.map PathBuf.fromStr).filter f)]))
    ∧ (∀ e, da ((ps.map PathBuf.fromStr).filter f) = Except.error e →
      trash_files f da ⟨ps⟩ =
        some (Except.ok (CallToolResult.success ["Failed to trash: " ++ e]),
          [DelegateCall.deleteAll ((ps.map PathBuf.fromStr).filter f)])) := by
  have hie : ((ps.map PathBuf.fromStr).filter f).isEmpty = false := by
    simp [List.isEmpty_iff, hne]
  constructor
  · intro u hda
    rw [trash_files_eq, hie, hda]
    rfl
  · intro e hda
    rw [trash_files_eq, hie, hda]
    rfl

/-- Witness for C3 at the specification example: paths `[A, B, C]` with `B` missing
and a succeeding delegate. -/
theorem C3_trash_files_outcome_witness :
    trash_files (fun p => !(p == "B")) (fun _ => Except.ok ())
        ⟨["A", "B", "C"]⟩ =
      some (Except.ok (CallToolResult.success
        ["Moved 2 items to trash\nSkipped (not found): B"]),
        [DelegateCall.deleteAll ["A", "C"]]) := by
  have h := (C3_trash_files_outcome (fun p => !(p == "B")) (fun _ => Except.ok ())
    ["A", "B", "C"] (by decide)).1 () rfl
  exact h.trans (by decide)

/-- Claim C4: when no input path exists (including the empty input list),
`trash_files` returns exactly "No valid paths to trash" and performs no
delegate call. -/
theorem C4_trash_files_no_valid (f : PathBuf → Bool)
    (da : List PathBuf → Except String Unit) (ps : List String)
    (h : (ps.map PathBuf.fromStr).filter f = []) :
    trash_files f da ⟨ps⟩ =
      some (Except.ok (CallToolResult.success ["No valid paths to trash"]), []) := by
  rw [trash_files_eq]
  simp [h]

/-- Witness for C4: one missing path, and separately the statement holds for
the instance chosen here. -/
theorem C4_trash_files_no_valid_witness :
    trash_files (fun _ => false) (fun _ => Except.ok ()) ⟨["B"]⟩ =
      some (Except.ok (CallToolResult.success ["No valid paths to trash"]), []) :=
  C4_trash_files_no_valid (fun _ => false) (fun _ => Except.ok ()) ["B"] (by decide)

/-- Claim C5: for a single-path request whose path does not exist,
`trash_file` returns exactly "Path does not exist: {path}", echoing the
original path string given by the caller, and performs no delegate call. -/
theorem C5_trash_file_missing (f : PathBuf → Bool)
    (del : PathBuf → Except String Unit) (p : String)
    (h : f (PathBuf.fromStr p) = false) :
    trash_file f del ⟨p⟩ =
      (Except.ok (CallToolResult.success ["Path does not exist: " ++ p]), []) := by
  simp [trash_file, h]

/-- Witness for C5 at path "/tmp/x" on a filesystem where nothing exists. -/
theorem C5_trash_file_missing_witness :
    trash_file (fun _ => false) (fun _ => Except.ok ()) ⟨"/tmp/x"⟩ =
      (Except.ok (CallToolResult.success ["Path does not exist: /tmp/x"]), []) := by
  have h := C5_trash_file_missing (fun _ => false) (fun _ => Except.ok ()) "/tmp/x" rfl
  exact h.trans (by decide)

/-- Claim C6: for a single-path request whose path exists, `trash_file` calls
the delegate single-delete exactly once and returns "Moved to trash: {path}"
on success and "Failed to trash: {error}" on failure. -/
theorem C6_trash_file_exists (f : PathBuf → Bool)
    (del : PathBuf → Except String Unit) (p : String)
    (h : f (PathBuf.fromStr p) = true) :
    (∀ u, del (PathBuf.fromStr p) = Except.ok u →
      trash_file f del ⟨p⟩ =
        (Except.ok (CallToolResult.success ["Moved to trash: " ++ p]),
         [DelegateCall.delete (PathBuf.fromStr p)]))
    ∧ (∀ e, del (PathBuf.fromStr p) = Except.error e →
      trash_file f del ⟨p⟩ =
        (Except.ok (CallToolResult.success ["Failed to trash: " ++ e]),
         [DelegateCall.delete (PathBuf.fromStr p)])) := by
  constructor
  · intro u hdel
    simp [trash_file, h, hdel]
  · intro e hdel
    simp [trash_file, h, hdel]

/-- Witness for C6 at the specification example "/tmp/x" with a succeeding delegate. -/
theorem C6_trash_file_exists_witness :
    trash_file (fun _ => true) (fun _ => Except.ok ()) ⟨"/tmp/x"⟩ =
      (Except.ok (CallToolResult.success ["Moved to trash: /tmp/x"]),
       [DelegateCall.delete "/tmp/x"]) := by
  have h := (C6_trash_file_exists (fun _ => true) (fun _ => Except.ok ())
    "/tmp/x" rfl).1 () rfl
  exact h.trans (by decide)

theorem trash_file_shape (f : PathBuf → Bool) (del : PathBuf → Except String Unit)
    (pf : TrashFileParams) :
    ∃ m calls, trash_file f del pf =
      (Except.ok (CallToolResult.success [m]), calls) := by
  by_cases hf : f (PathBuf.fromStr pf.path) = true
  · cases hdel : del (PathBuf.fromStr pf.path) with
    | ok u =>
      refine ⟨"Moved to trash: " ++ pf.path,
        [DelegateCall.delete (PathBuf.fromStr pf.path)], ?_⟩
      simp [trash_file, hf, hdel]
    | error e =>
      refine ⟨"Failed to trash: " ++ e,
        [DelegateCall.delete (PathBuf.fromStr pf.path)], ?_⟩
      simp [trash_file, hf, hdel]
  · refine ⟨"Path does not exist: " ++ pf.path, [], ?_⟩
    simp [trash_file, hf]

theorem trash_files_shape (f : PathBuf → Bool)
    (da : List PathBuf → Except String Unit) (ps : List String) :
    ∃ m calls, trash_files f da ⟨ps⟩ =
      some (Except.ok (CallToolResult.success [m]), calls) := by
  by_cases he : ((ps.map PathBuf.fromStr).filter f).isEmpty = true
  · refine ⟨"No valid paths to trash", [], ?_⟩
    rw [trash_files_eq, he]
    rfl
  · rw [Bool.not_eq_true] at he
    cases hda : da ((ps.map PathBuf.fromStr).filter f) with
    | ok u =>
      refine ⟨(if !(ps.filter fun s => !f (PathBuf.fromStr s)).isEmpty then
          "Moved " ++ toString ((ps.map PathBuf.fromStr).filter f).length ++
            " items to trash" ++
            ("\nSkipped (not found): " ++
              String.intercalate ", " (ps.filter fun s => !f (PathBuf.fromStr s)))
        else
          "Moved " ++ toString ((ps.map PathBuf.fromStr).filter f).length ++
            " items to trash"),
        [DelegateCall.deleteAll ((ps.map PathBuf.fromStr).filter f)], ?_⟩
      rw [trash_files_eq, he, hda]
      rfl
    | error e =>
      refine ⟨"Failed to trash: " ++ e,
        [DelegateCall.deleteAll ((ps.map PathBuf.fromStr).filter f)], ?_⟩
      rw [trash_files_eq, he, hda]
      rfl

theorem list_trash_supported_shape (lst : Except String (List TrashItem)) :
    ∃ m, list_trash_supported lst =
      (Except.ok (CallToolResult.success [m]), [DelegateCall.list]) := by
  cases lst with
  | ok items =>
    by_cases he : items.isEmpty = true
    · exact ⟨"Trash is empty", by simp [list_trash_supported, he]⟩
    · exact ⟨"Trash contents (" ++ toString items.length ++ " items):\n" ++
        String.intercalate "\n" (items.map (fun item => item.name)),
        by simp [list_trash_supported, he]⟩
  | error e => exact ⟨"Failed to list trash: " ++ e, by simp [list_trash_supported]⟩

/-- Claim C7: every handler, on every input and delegate outcome, returns a
protocol-level success (`Except.ok` with `isError = false`) carrying
non-empty descriptive text; no branch produces a protocol-level error. -/
theorem C7_protocol_success (f : PathBuf → Bool)
    (del : PathBuf → Except String Unit) (da : List PathBuf → Except String Unit)
    (pf : TrashFileParams) (ps : List String)
    (lst : Except String (List TrashItem)) :
    (∃ r, (trash_file f del pf).1 = Except.ok r ∧
      r.isError = false ∧ r.content ≠ [])
    ∧ (∃ r calls, trash_files f da ⟨ps⟩ = some (Except.ok r, calls) ∧
        r.isError = false ∧ r.content ≠ [])
    ∧ (∃ r, (list_trash_supported lst).1 = Except.ok r ∧
        r.isError = false ∧ r.content ≠ [])
    ∧ (∃ r, (list_trash_unsupported lst).1 = Except.ok r ∧
        r.isError = false ∧ r.content ≠ []) := by
  obtain ⟨m1, c1, h1⟩ := trash_file_shape f del pf
  obtain ⟨m2, c2, h2⟩ := trash_files_shape f da ps
  obtain ⟨m3, h3⟩ := list_trash_supported_shape lst
  refine ⟨⟨CallToolResult.success [m1], by rw [h1], rfl,
      by simp [CallToolResult.success]⟩,
    ⟨CallToolResult.success [m2], c2, h2, rfl,
      by simp [CallToolResult.success]⟩,
    ⟨CallToolResult.success [m3], by rw [h3], rfl,
      by simp [CallToolResult.success]⟩,
    ⟨CallToolResult.success
        ["list_trash is not supported on this platform (Linux/Windows only)"],
      rfl, rfl, by simp [CallToolResult.success]⟩⟩

/-- Claim C8: on a build configuration where listing is unsupported,
`list_trash` returns exactly the fixed unsupported message for every
invocation, independent of the delegate (and of any runtime state), and
performs no delegate call. -/
theorem C8_list_trash_unsupported_fixed (lst : Except String (List TrashItem)) :
    list_trash_unsupported lst =
      (Except.ok (CallToolResult.success
        ["list_trash is not supported on this platform (Linux/Windows only)"]),
       []) := rfl

/-- Claim C9: on a build configuration where listing is supported,
`list_trash` performs exactly one delegate list call and returns "Trash is
empty" for an empty listing, "Trash contents ({N} items):" plus the
newline-joined names in delegate order for a non-empty listing, and "Failed
to list trash: {error}" on a delegate error. -/
theorem C9_list_trash_supported_outcome (lst : Except String (List TrashItem)) :
    (lst = Except.ok [] →
      list_trash_supported lst =
        (Except.ok (CallToolResult.success ["Trash is empty"]),
         [DelegateCall.list]))
    ∧ (∀ items, lst = Except.ok items → items ≠ [] →
      list_trash_supported lst =
        (Except.ok (CallToolResult.success
          ["Trash contents (" ++ toString items.length ++ " items):\n" ++
            String.intercalate "\n" (items.map (fun item => item.name))]),
         [DelegateCall.list]))
    ∧ (∀ e, lst = Except.error e →
      list_trash_supported lst =
        (Except.ok (CallToolResult.success ["Failed to list trash: " ++ e]),
         [DelegateCall.list])) := by
  refine ⟨fun h => ?_, fun items h hne => ?_, fun e h => ?_⟩
  · subst h
    rfl
  · subst h
    have he : items.isEmpty = false := by simp [List.isEmpty_iff, hne]
    simp [list_trash_supported, he]
  · subst h
    rfl

/-- Witness for C9: a two-item listing. -/
theorem C9_list_trash_supported_witness :
    list_trash_supported (Except.ok [⟨"a.txt"⟩, ⟨"b.txt"⟩]) =
      (Except.ok (CallToolResult.success
        ["Trash contents (2 items):\na.txt\nb.txt"]),
       [DelegateCall.list]) := by
  have h := (C9_list_trash_supported_outcome
    (Except.ok [⟨"a.txt"⟩, ⟨"b.txt"⟩])).2.1 [⟨"a.txt"⟩, ⟨"b.txt"⟩] rfl (by decide)
  exact h.trans (by decide)

/-- Claim C10: the indexed lookup `params.paths[i]` inside `trash_files` is
in bounds for every input: the `PathBuf` list is built element-for-element
from `params.paths` (so the lengths agree), and the embedded handler is
total, never taking the out-of-bounds (`none`) branch. -/
theorem C10_trash_files_total (f : PathBuf → Bool)
    (da : List PathBuf → Except String Unit) (ps : List String) :
    (ps.map PathBuf.fromStr).length = ps.length ∧
    ∃ res, trash_files f da ⟨ps⟩ = some res := by
  refine ⟨by simp, ?_⟩
  obtain ⟨m, calls, h⟩ := trash_files_shape f da ps
  exact ⟨_, h⟩
